import Mathlib

/-!
Verification of the node-drainer lambda (src/lambda/drain_node_lambda.py).

The Python module is embedded shallowly.  Every externally visible effect
(AWS EC2/EKS/ASG calls, Kubernetes API calls, sleeps, stdout diagnostics)
is recorded in an action trace, and the responses of the external services
are supplied by a `World` oracle that fixes the outcome of each external
call.  Python exceptions are modelled by `PyError`, distinguishing the two
exception classes the code catches (`kubernetes ApiException`,
`botocore ClientError`) from every other exception; `sys.exit` and an
uncaught exception leaving a function are modelled by `PyResult`.
Wall-clock time advances only at `time.sleep`, so the convergence loop is
modelled with an explicit `now`/`endtime` pair stepping by the sleep
interval, matching the timing idealization used throughout the module's
own comments (3 minutes / 5 seconds = 36 polls).
-/

namespace DrainNode

/-- One Kubernetes owner reference; the code only reads its `kind`. -/
structure OwnerRef where
  kind : String
  deriving DecidableEq, Repr

/-- The pod metadata fields the lambda reads.  In the Python Kubernetes
client `owner_references` is `None` when the pod has no owner references,
modelled here as `none`; `some l` models an actual list value. -/
structure PodMetadata where
  name : String
  nspace : String
  owner_references : Option (List OwnerRef)
  deriving DecidableEq, Repr

/-- A pod as returned by `list_pod_for_all_namespaces`. -/
structure Pod where
  metadata : PodMetadata
  deriving DecidableEq, Repr

/-- Python exceptions, grouped by the classes the code distinguishes in
its `except` clauses.  `otherError` covers every exception that is neither
a `kubernetes ApiException` nor a `botocore ClientError` (e.g. `TypeError`
or `IndexError` raised by subscripting). -/
inductive PyError where
  | apiException : PyError
  | clientError : PyError
  | otherError : String → PyError
  deriving DecidableEq, Repr

/-- Result of running a piece of the lambda: a normal value, `sys.exit`
with a code, or an uncaught exception propagating out. -/
inductive PyResult (α : Type) where
  | ok : α → PyResult α
  | exited : Nat → PyResult α
  | uncaught : PyError → PyResult α
  deriving DecidableEq, Repr

/-- One EC2 instance record; the code only reads `PrivateDnsName`. -/
structure Ec2Instance where
  privateDnsName : String
  deriving DecidableEq, Repr

/-- One reservation in a `describe_instances` response. -/
structure Ec2Reservation where
  instances : List Ec2Instance
  deriving DecidableEq, Repr

/-- A `describe_instances` response body. -/
structure Ec2Response where
  reservations : List Ec2Reservation
  deriving DecidableEq, Repr

/-- The parts of a `describe_cluster` response that the code reads. -/
structure ClusterInfo where
  endpoint : String
  certificateAuthorityData : String
  deriving DecidableEq, Repr

/-- Externally visible effects of the lambda, in program order. -/
inductive Action where
  | describeInstances (instanceId : String)
  | describeCluster (clusterName : String)
  | writeKubeConfig (path : String)
  | loadKubeConfig (path : String)
  | patchNode (node : String) (unschedulable : Bool)
  | listPods (fieldSelector : String)
  | createPodEviction (name nspace : String) (gracePeriodSeconds : Nat)
  | sleep (seconds : Nat)
  | completeLifecycleAction (hook group result instanceId : String)
  | logMsg (msg : String)
  deriving DecidableEq, Repr

/-- Oracle fixing the outcome of every external call made during one
invocation.  `listPodsResult j` is the cluster response to the j-th
`list_pod_for_all_namespaces` call (j = 0 is the initial planning call,
j = 1, 2, ... are the convergence polls); `evictResult` gives the outcome
of `create_namespaced_pod_eviction` per pod name and namespace. -/
structure World where
  describeInstancesResult : Except PyError Ec2Response
  describeClusterResult : Except PyError ClusterInfo
  patchNodeResult : Except PyError Unit
  listPodsResult : Nat → Except PyError (List Pod)
  evictResult : String → String → Except PyError Unit
  completeLifecycleResult : Except PyError Unit

/-- The fields of the CloudWatch event that the lambda reads
(`event.region`, `event.detail.EC2InstanceId`, and so on). -/
structure Event where
  region : String
  ec2InstanceId : String
  notificationMetadata : String
  lifecycleHookName : String
  autoScalingGroupName : String

/-- Sequencing of two effectful steps: the second runs only when the
first returned normally; `sys.exit` and uncaught exceptions short-circuit
while keeping the trace accumulated so far. -/
def seqA {α β : Type} :
    List Action × PyResult α → (α → List Action × PyResult β) →
      List Action × PyResult β
  | (t, PyResult.ok a), f => (t ++ (f a).1, (f a).2)
  | (t, PyResult.exited c), _ => (t, PyResult.exited c)
  | (t, PyResult.uncaught e), _ => (t, PyResult.uncaught e)

/-- `get_hostname`: resolves the instance id of the event to the private
DNS name via `describe_instances`.  Only `ClientError` is caught (and
turned into `sys.exit(1)`); subscripting an empty `Reservations` or
`Instances` list raises an uncaught `IndexError`. -/
def get_hostname (w : World) (event : Event) : List Action × PyResult String :=
  let instance_id := event.ec2InstanceId
  match w.describeInstancesResult with
  | Except.error PyError.clientError =>
      ([Action.describeInstances instance_id,
        Action.logMsg ("Exception when converting " ++ instance_id ++ " to private DNS")],
       PyResult.exited 1)
  | Except.error e => ([Action.describeInstances instance_id], PyResult.uncaught e)
  | Except.ok resp =>
      match resp.reservations with
      | [] => ([Action.describeInstances instance_id],
               PyResult.uncaught (PyError.otherError "IndexError"))
      | r :: _ =>
          match r.instances with
          | [] => ([Action.describeInstances instance_id],
                   PyResult.uncaught (PyError.otherError "IndexError"))
          | i :: _ => ([Action.describeInstances instance_id], PyResult.ok i.privateDnsName)

/-- `generate_kube_config`: describes the cluster and writes the
kubeconfig document to /tmp/kubeconfig.  There is no `try` here, so any
failure of `describe_cluster` propagates uncaught (fatal). -/
def generate_kube_config (w : World) (region cluster_name : String) :
    List Action × PyResult Unit :=
  match w.describeClusterResult with
  | Except.error e => ([Action.describeCluster cluster_name], PyResult.uncaught e)
  | Except.ok _ =>
      ([Action.describeCluster cluster_name, Action.writeKubeConfig "/tmp/kubeconfig"],
       PyResult.ok ())

/-- `cordon_node`: patches the node unschedulable; only `ApiException` is
caught (logged and swallowed), any other exception propagates. -/
def cordon_node (w : World) (node : String) : List Action × PyResult Unit :=
  let entry := Action.logMsg ("Cordoning Node " ++ node)
  match w.patchNodeResult with
  | Except.ok _ => ([entry, Action.patchNode node true], PyResult.ok ())
  | Except.error PyError.apiException =>
      ([entry, Action.patchNode node true,
        Action.logMsg ("Exception when cordoning " ++ node)], PyResult.ok ())
  | Except.error e => ([entry, Action.patchNode node true], PyResult.uncaught e)

/-- `evict_pod`: creates one pod eviction with
`grace_period_seconds = 750`; only `ApiException` is caught (logged and
swallowed), any other exception propagates. -/
def evict_pod (w : World) (name nspace : String) : List Action × PyResult Unit :=
  let entry := Action.logMsg ("Evicting " ++ name ++ " in namespace " ++ nspace ++ "!")
  match w.evictResult name nspace with
  | Except.ok _ => ([entry, Action.createPodEviction name nspace 750], PyResult.ok ())
  | Except.error PyError.apiException =>
      ([entry, Action.createPodEviction name nspace 750,
        Action.logMsg ("Exception when evicting " ++ name)], PyResult.ok ())
  | Except.error e => ([entry, Action.createPodEviction name nspace 750], PyResult.uncaught e)

/-- `continue_lifecycle`: completes the lifecycle action with result
CONTINUE; only `ClientError` is caught (logged and swallowed). -/
def continue_lifecycle (w : World) (life_cycle_hook auto_scaling_group instance_id : String) :
    List Action × PyResult Unit :=
  let act := Action.completeLifecycleAction life_cycle_hook auto_scaling_group
      "CONTINUE" instance_id
  match w.completeLifecycleResult with
  | Except.ok _ => ([act], PyResult.ok ())
  | Except.error PyError.clientError =>
      ([act, Action.logMsg ("Exception in advancing lifecycle event " ++ life_cycle_hook)],
       PyResult.ok ())
  | Except.error e => ([act], PyResult.uncaught e)

/-- The filtering loop of `get_evictable_pods`: appends each pod whose
first owner reference kind differs from DaemonSet.  The subscript
`pod.metadata.owner_references[0]` raises when the pod has no owner
references (`TypeError` on `None`, `IndexError` on an empty list), and
such an exception aborts the whole listing. -/
def filterEvictable : List Pod → Except PyError (List Pod)
  | [] => Except.ok []
  | pod :: rest =>
      match pod.metadata.owner_references with
      | none => Except.error (PyError.otherError "TypeError")
      | some [] => Except.error (PyError.otherError "IndexError")
      | some (r :: _) =>
          if r.kind ≠ "DaemonSet" then
            match filterEvictable rest with
            | Except.ok l => Except.ok (pod :: l)
            | Except.error e => Except.error e
          else filterEvictable rest

/-- `get_evictable_pods`: lists all pods on the node (field selector
`spec.nodeName=<node_name>`), then filters out pods whose first owner
reference is of kind DaemonSet.  `callIdx` indexes the successive
list calls of one invocation in the `World` oracle; the listing call
itself has no `try`, so any of its failures propagates uncaught. -/
def get_evictable_pods (w : World) (callIdx : Nat) (node_name : String) :
    List Action × PyResult (List Pod) :=
  let field_selector := "spec.nodeName=" ++ node_name
  match w.listPodsResult callIdx with
  | Except.error e => ([Action.listPods field_selector], PyResult.uncaught e)
  | Except.ok pods =>
      match filterEvictable pods with
      | Except.ok l => ([Action.listPods field_selector], PyResult.ok l)
      | Except.error e => ([Action.listPods field_selector], PyResult.uncaught e)

/-- The eviction fan-out of `lambda_handler`: one `evict_pod` call per pod
of the initial planning snapshot, in listing order. -/
def evictAll (w : World) : List Pod → List Action × PyResult Unit
  | [] => ([], PyResult.ok ())
  | pod :: rest =>
      seqA (evict_pod w pod.metadata.name pod.metadata.nspace)
        (fun _ => evictAll w rest)

/-- The convergence loop of `lambda_handler`:
`while time.time() < endtime` re-lists the evictable pods, breaks when
the set is empty, and otherwise sleeps 5 seconds.  Time is normalized so
the loop is entered at `now` with deadline `endtime`, advancing only at
the sleep; the returned list is the final value of `remaining_pods`. -/
def convergeLoop (w : World) (node_name : String) (callIdx now endtime : Nat)
    (remaining_pods : List Pod) : List Action × PyResult (List Pod) :=
  if h : now < endtime then
    seqA (get_evictable_pods w callIdx node_name) (fun polled =>
      if polled = [] then
        ([Action.logMsg "All pods have been evicted.  Safe to proceed with node termination"],
         PyResult.ok [])
      else
        let rest := convergeLoop w node_name (callIdx + 1) (now + 5) endtime polled
        (Action.logMsg ("Waiting for " ++ toString polled.length ++ " pods to evict!") ::
           Action.sleep 5 :: rest.1,
         rest.2))
  else ([], PyResult.ok remaining_pods)
termination_by endtime - now
decreasing_by omega

/-- The straggler block of `lambda_handler`: when pods remain after the
loop, log them and sleep a fixed 30 seconds; otherwise do nothing. -/
def stragglerWait (remaining_pods : List Pod) : List Action × PyResult Unit :=
  if remaining_pods = [] then ([], PyResult.ok ())
  else
    ((Action.logMsg "The following pods did not drain successfully:" ::
        remaining_pods.map (fun pod =>
          Action.logMsg (pod.metadata.nspace ++ "/" ++ pod.metadata.name))) ++
      [Action.sleep 30],
     PyResult.ok ())

/-- `lambda_handler`: resolve hostname, generate and load the kubeconfig,
cordon, plan evictions once, fan out evictions, run the convergence loop
(deadline `60 * 3` seconds, polls every 5 seconds), wait 30 seconds when
stragglers remain, then complete the lifecycle action. -/
def lambda_handler (w : World) (event : Event) : List Action × PyResult Unit :=
  seqA (get_hostname w event) (fun node_name =>
  seqA (generate_kube_config w event.region event.notificationMetadata) (fun _ =>
  seqA ([Action.loadKubeConfig "/tmp/kubeconfig"], PyResult.ok ()) (fun _ =>
  seqA ([Action.logMsg ("Recieved a request to evict node " ++ node_name)],
        PyResult.ok ()) (fun _ =>
  seqA (cordon_node w node_name) (fun _ =>
  seqA (get_evictable_pods w 0 node_name) (fun pods =>
  seqA (evictAll w pods) (fun _ =>
  seqA (convergeLoop w node_name 1 0 (60 * 3) []) (fun remaining_pods =>
  seqA (stragglerWait remaining_pods) (fun _ =>
  continue_lifecycle w event.lifecycleHookName event.autoScalingGroupName
    event.ec2InstanceId)))))))))

/-- Whether the first owner reference of a pod has kind DaemonSet
(false also when the pod has no owner references). -/
def firstOwnerIsDaemonSet (pod : Pod) : Bool :=
  match pod.metadata.owner_references with
  | some (r :: _) => r.kind == "DaemonSet"
  | _ => false

/-- Whether a pod has at least one owner reference. -/
def hasOwner (pod : Pod) : Bool :=
  match pod.metadata.owner_references with
  | some (_ :: _) => true
  | _ => false

/-- Classifier: eviction-request actions. -/
def isEvictAct : Action → Bool
  | Action.createPodEviction _ _ _ => true
  | _ => false

/-- Classifier: lifecycle-completion actions. -/
def isLifecycleAct : Action → Bool
  | Action.completeLifecycleAction _ _ _ _ => true
  | _ => false

/-- Classifier: pod-listing (planning) actions. -/
def isPollAct : Action → Bool
  | Action.listPods _ => true
  | _ => false

/-- Classifier: node-patch (cordon) actions. -/
def isPatchAct : Action → Bool
  | Action.patchNode _ _ => true
  | _ => false

/-- Classifier: sleeps of a given duration. -/
def isSleepAct (n : Nat) : Action → Bool
  | Action.sleep m => m == n
  | _ => false

/-- A world in which no fatal error occurs: the instance resolves to
`dns`, the cluster can be described, cordon and evictions either succeed
or fail with the caught `ApiException`, and every pod-list response
arrives and contains only pods with at least one owner reference.  The
lifecycle-completion outcome is unconstrained. -/
structure RunsClean (w : World) (dns : String) : Prop where
  resolves : ∃ resp r rs i il, w.describeInstancesResult = Except.ok resp ∧
      resp.reservations = r :: rs ∧ r.instances = i :: il ∧ i.privateDnsName = dns
  clusterOk : ∃ ci, w.describeClusterResult = Except.ok ci
  patchOk : w.patchNodeResult = Except.ok () ∨
      w.patchNodeResult = Except.error PyError.apiException
  listsOk : ∀ j, ∃ pods, w.listPodsResult j = Except.ok pods ∧
      ∀ p ∈ pods, hasOwner p = true
  evictOk : ∀ n ns, w.evictResult n ns = Except.ok () ∨
      w.evictResult n ns = Except.error PyError.apiException

/-- A pod owned by a ReplicaSet (evictable). -/
def podA : Pod := ⟨⟨"pod-a", "default", some [⟨"ReplicaSet"⟩]⟩⟩

/-- A pod owned by a DaemonSet (filtered out). -/
def podB : Pod := ⟨⟨"pod-b", "kube-system", some [⟨"DaemonSet"⟩]⟩⟩

/-- A pod owned by a StatefulSet (evictable). -/
def podC : Pod := ⟨⟨"pod-c", "default", some [⟨"StatefulSet"⟩]⟩⟩

/-- A pod with no owner references (`owner_references` is `None`). -/
def podBare : Pod := ⟨⟨"pod-bare", "default", none⟩⟩

/-- A concrete event used by the witnesses. -/
def ev0 : Event :=
  ⟨"us-east-1", "i-0123", "cluster-1", "hook-1", "asg-1"⟩

/-- A concrete world where everything succeeds: the initial planning call
returns three owned pods (one DaemonSet-owned), every later poll returns
the empty list. -/
def wClean : World where
  describeInstancesResult :=
    Except.ok ⟨[⟨[⟨"ip-10-0-1-5.ec2.internal"⟩]⟩]⟩
  describeClusterResult := Except.ok ⟨"https://cluster.example", "Q0E="⟩
  patchNodeResult := Except.ok ()
  listPodsResult := fun j => if j = 0 then Except.ok [podA, podB, podC] else Except.ok []
  evictResult := fun _ _ => Except.ok ()
  completeLifecycleResult := Except.ok ()

/-- A concrete world exercising every best-effort failure at once:
cordon fails with `ApiException`, the eviction of pod-a fails with
`ApiException`, and the lifecycle completion fails with `ClientError`. -/
def wBestEffort : World where
  describeInstancesResult :=
    Except.ok ⟨[⟨[⟨"ip-10-0-1-5.ec2.internal"⟩]⟩]⟩
  describeClusterResult := Except.ok ⟨"https://cluster.example", "Q0E="⟩
  patchNodeResult := Except.error PyError.apiException
  listPodsResult := fun j => if j = 0 then Except.ok [podA, podC] else Except.ok []
  evictResult := fun n _ =>
    if n = "pod-a" then Except.error PyError.apiException else Except.ok ()
  completeLifecycleResult := Except.error PyError.clientError

/-- A concrete world where the cordon patch fails with `ClientError`,
an exception class `cordon_node` does not catch. -/
def wUncaughtPatch : World where
  describeInstancesResult :=
    Except.ok ⟨[⟨[⟨"ip-10-0-1-5.ec2.internal"⟩]⟩]⟩
  describeClusterResult := Except.ok ⟨"https://cluster.example", "Q0E="⟩
  patchNodeResult := Except.error PyError.clientError
  listPodsResult := fun _ => Except.ok []
  evictResult := fun _ _ => Except.ok ()
  completeLifecycleResult := Except.ok ()

/-- A concrete world where `describe_instances` fails with
`ClientError` (instance not found). -/
def wNoInstance : World where
  describeInstancesResult := Except.error PyError.clientError
  describeClusterResult := Except.ok ⟨"https://cluster.example", "Q0E="⟩
  patchNodeResult := Except.ok ()
  listPodsResult := fun _ => Except.ok []
  evictResult := fun _ _ => Except.ok ()
  completeLifecycleResult := Except.ok ()

/-- A concrete world where the `describe_instances` response carries an
empty `Reservations` list, so the subscript raises `IndexError`. -/
def wEmptyReservations : World where
  describeInstancesResult := Except.ok ⟨[]⟩
  describeClusterResult := Except.ok ⟨"https://cluster.example", "Q0E="⟩
  patchNodeResult := Except.ok ()
  listPodsResult := fun _ => Except.ok []
  evictResult := fun _ _ => Except.ok ()
  completeLifecycleResult := Except.ok ()

/-- A concrete world whose node carries a pod without owner references:
the initial planning call returns an evictable pod plus `podBare`. -/
def wBarePod : World where
  describeInstancesResult :=
    Except.ok ⟨[⟨[⟨"ip-10-0-1-5.ec2.internal"⟩]⟩]⟩
  describeClusterResult := Except.ok ⟨"https://cluster.example", "Q0E="⟩
  patchNodeResult := Except.ok ()
  listPodsResult := fun _ => Except.ok [podA, podBare]
  evictResult := fun _ _ => Except.ok ()
  completeLifecycleResult := Except.ok ()

/-- Sequencing after a normal result appends the traces. -/
theorem seqA_ok {α β : Type} (t : List Action) (a : α)
    (f : α → List Action × PyResult β) :
    seqA (t, PyResult.ok a) f = (t ++ (f a).1, (f a).2) := rfl

/-- Sequencing after a step known to return `a` normally. -/
theorem seqA_split {α β : Type} (s : List Action × PyResult α) (a : α)
    (hs : s.2 = PyResult.ok a) (f : α → List Action × PyResult β) :
    seqA s f = (s.1 ++ (f a).1, (f a).2) := by
  obtain ⟨t, r⟩ := s
  cases r with
  | ok b => cases hs; rfl
  | exited c => cases hs
  | uncaught e => cases hs

/-- In a clean world, `get_hostname` performs one `describe_instances`
call and returns the resolved private DNS name. -/
theorem gh_clean {w : World} {dns : String} (h : RunsClean w dns) (e : Event) :
    get_hostname w e = ([Action.describeInstances e.ec2InstanceId], PyResult.ok dns) := by
  obtain ⟨resp, r, rs, i, il, h1, h2, h3, h4⟩ := h.resolves
  simp [get_hostname, h1, h2, h3, h4]

/-- In a clean world, `generate_kube_config` describes the cluster and
writes the config file. -/
theorem gkc_clean {w : World} {dns : String} (h : RunsClean w dns)
    (region cluster_name : String) :
    generate_kube_config w region cluster_name =
      ([Action.describeCluster cluster_name, Action.writeKubeConfig "/tmp/kubeconfig"],
       PyResult.ok ()) := by
  obtain ⟨ci, hci⟩ := h.clusterOk
  simp [generate_kube_config, hci]

/-- When the patch either succeeds or fails with the caught
`ApiException`, `cordon_node` returns normally. -/
theorem cordon_res {w : World} (node : String)
    (h : w.patchNodeResult = Except.ok () ∨
      w.patchNodeResult = Except.error PyError.apiException) :
    (cordon_node w node).2 = PyResult.ok () := by
  rcases h with h | h <;> simp [cordon_node, h]

/-- Every action of `cordon_node` is the patch on this node or a log. -/
theorem cordon_shape (w : World) (node : String) :
    ∀ a ∈ (cordon_node w node).1,
      a = Action.patchNode node true ∨ ∃ s, a = Action.logMsg s := by
  intro a ha
  rcases hp : w.patchNodeResult with e | u
  · cases e <;> simp [cordon_node, hp] at ha <;> aesop
  · simp [cordon_node, hp] at ha
    aesop

/-- `cordon_node` issues the patch exactly once. -/
theorem cordon_patch_count (w : World) (node : String) :
    ((cordon_node w node).1.countP isPatchAct) = 1 := by
  rcases hp : w.patchNodeResult with e | u
  · cases e <;> simp [cordon_node, hp, List.countP, List.countP.go, isPatchAct]
  · simp [cordon_node, hp, List.countP, List.countP.go, isPatchAct]

/-- When the eviction call either succeeds or fails with the caught
`ApiException`, `evict_pod` returns normally. -/
theorem evict_pod_res {w : World} (name nspace : String)
    (h : w.evictResult name nspace = Except.ok () ∨
      w.evictResult name nspace = Except.error PyError.apiException) :
    (evict_pod w name nspace).2 = PyResult.ok () := by
  rcases h with h | h <;> simp [evict_pod, h]

/-- Every action of `evict_pod` is this pod's eviction request or a log. -/
theorem evict_pod_shape (w : World) (name nspace : String) :
    ∀ a ∈ (evict_pod w name nspace).1,
      a = Action.createPodEviction name nspace 750 ∨ ∃ s, a = Action.logMsg s := by
  intro a ha
  rcases hp : w.evictResult name nspace with e | u
  · cases e <;> simp [evict_pod, hp] at ha <;> aesop
  · simp [evict_pod, hp] at ha
    aesop

/-- Whatever the outcome, `evict_pod` issues exactly one eviction
request, with grace period 750 seconds. -/
theorem evict_pod_filter (w : World) (name nspace : String) :
    (evict_pod w name nspace).1.filter isEvictAct =
      [Action.createPodEviction name nspace 750] := by
  rcases hp : w.evictResult name nspace with e | u
  · cases e <;> simp [evict_pod, hp, isEvictAct, List.filter]
  · simp [evict_pod, hp, isEvictAct, List.filter]

/-- When every eviction outcome is success or the caught `ApiException`,
the eviction fan-out completes normally. -/
theorem evictAll_res {w : World}
    (h : ∀ n ns, w.evictResult n ns = Except.ok () ∨
      w.evictResult n ns = Except.error PyError.apiException) :
    ∀ l : List Pod, (evictAll w l).2 = PyResult.ok () := by
  intro l
  induction l with
  | nil => rfl
  | cons p rest ih =>
      rw [evictAll, seqA_split _ () (evict_pod_res _ _ (h _ _))]
      exact ih

/-- Under the same assumption, the eviction requests issued by the
fan-out are exactly one per pod of the snapshot, in listing order. -/
theorem evictAll_filter {w : World}
    (h : ∀ n ns, w.evictResult n ns = Except.ok () ∨
      w.evictResult n ns = Except.error PyError.apiException) :
    ∀ l : List Pod, (evictAll w l).1.filter isEvictAct =
      l.map (fun p => Action.createPodEviction p.metadata.name p.metadata.nspace 750) := by
  intro l
  induction l with
  | nil => rfl
  | cons p rest ih =>
      rw [evictAll, seqA_split _ () (evict_pod_res _ _ (h _ _))]
      simp only [List.filter_append, ih, evict_pod_filter]
      rfl

/-- In every world, each action of the eviction fan-out over `l` is the
eviction request of some pod of `l` or a log. -/
theorem evictAll_shape (w : World) :
    ∀ l : List Pod, ∀ a ∈ (evictAll w l).1,
      (∃ p ∈ l, a = Action.createPodEviction p.metadata.name p.metadata.nspace 750) ∨
        ∃ s, a = Action.logMsg s := by
  intro l
  induction l with
  | nil => intro a ha; simp [evictAll] at ha
  | cons p rest ih =>
      intro a ha
      rw [evictAll] at ha
      rcases hr : (evict_pod w p.metadata.name p.metadata.nspace) with ⟨t, r⟩
      have hmem : ∀ b ∈ t, b = Action.createPodEviction p.metadata.name p.metadata.nspace 750 ∨
          ∃ s, b = Action.logMsg s := by
        intro b hb
        have := evict_pod_shape w p.metadata.name p.metadata.nspace b
        rw [hr] at this
        exact this hb
      cases r with
      | ok u =>
          rw [hr, seqA_ok] at ha
          rcases List.mem_append.mp ha with hat | har
          · rcases hmem a hat with hb | hb
            · exact Or.inl ⟨p, List.mem_cons_self _ _, hb⟩
            · exact Or.inr hb
          · rcases ih a har with ⟨q, hq, hb⟩ | hb
            · exact Or.inl ⟨q, List.mem_cons_of_mem _ hq, hb⟩
            · exact Or.inr hb
      | exited c =>
          rw [hr] at ha
          simp [seqA] at ha
          rcases hmem a ha with hb | hb
          · exact Or.inl ⟨p, List.mem_cons_self _ _, hb⟩
          · exact Or.inr hb
      | uncaught e =>
          rw [hr] at ha
          simp [seqA] at ha
          rcases hmem a ha with hb | hb
          · exact Or.inl ⟨p, List.mem_cons_self _ _, hb⟩
          · exact Or.inr hb

/-- When an eviction of a pod of the snapshot fails with `ApiException`
(and all outcomes are non-fatal), the corresponding diagnostic is in the
fan-out trace. -/
theorem evictAll_log {w : World}
    (h : ∀ n ns, w.evictResult n ns = Except.ok () ∨
      w.evictResult n ns = Except.error PyError.apiException) :
    ∀ l : List Pod, ∀ p ∈ l,
      w.evictResult p.metadata.name p.metadata.nspace = Except.error PyError.apiException →
      Action.logMsg ("Exception when evicting " ++ p.metadata.name) ∈ (evictAll w l).1 := by
  intro l
  induction l with
  | nil => intro p hp; simp at hp
  | cons q rest ih =>
      intro p hp hfail
      rw [evictAll, seqA_split _ () (evict_pod_res _ _ (h _ _))]
      rcases List.mem_cons.mp hp with hpq | hpr
      · subst hpq
        apply List.mem_append_left
        simp [evict_pod, hfail]
      · exact List.mem_append_right _ (ih p hpr hfail)

/-- `get_evictable_pods` always performs exactly one listing call, with
the field selector naming the given node. -/
theorem gep_trace (w : World) (k : Nat) (node : String) :
    (get_evictable_pods w k node).1 = [Action.listPods ("spec.nodeName=" ++ node)] := by
  rcases hl : w.listPodsResult k with e | pods
  · simp [get_evictable_pods, hl]
  · rcases hf : filterEvictable pods with e | l <;> simp [get_evictable_pods, hl, hf]

/-- On a list of pods that all have at least one owner reference, the
filtering loop succeeds and keeps exactly the pods whose first owner
reference is not of kind DaemonSet, in order. -/
theorem filterEvictable_eq_filter :
    ∀ pods : List Pod, (∀ p ∈ pods, hasOwner p = true) →
      filterEvictable pods =
        Except.ok (pods.filter (fun p => !(firstOwnerIsDaemonSet p))) := by
  intro pods
  induction pods with
  | nil => intro _; rfl
  | cons p rest ih =>
      intro hall
      have hp : hasOwner p = true := hall p (List.mem_cons_self _ _)
      have hrest := ih (fun q hq => hall q (List.mem_cons_of_mem _ hq))
      rcases ho : p.metadata.owner_references with _ | ors
      · simp [hasOwner, ho] at hp
      · rcases ors with _ | ⟨r, t⟩
        · simp [hasOwner, ho] at hp
        · rw [filterEvictable, ho]
          by_cases hk : r.kind = "DaemonSet"
          · have hd : firstOwnerIsDaemonSet p = true := by
              simp [firstOwnerIsDaemonSet, ho, hk]
            simp [hk, hrest, List.filter, hd]
          · have hd : firstOwnerIsDaemonSet p = false := by
              simp [firstOwnerIsDaemonSet, ho, hk]
            simp [hk, hrest, List.filter, hd]

/-- In a world whose pod-list response for call `k` arrives and contains
only owned pods, `get_evictable_pods` returns the DaemonSet-filtered
list. -/
theorem gep_clean {w : World} {k : Nat} {pods : List Pod} (node : String)
    (hl : w.listPodsResult k = Except.ok pods)
    (hown : ∀ p ∈ pods, hasOwner p = true) :
    get_evictable_pods w k node =
      ([Action.listPods ("spec.nodeName=" ++ node)],
       PyResult.ok (pods.filter (fun p => !(firstOwnerIsDaemonSet p)))) := by
  simp [get_evictable_pods, hl, filterEvictable_eq_filter pods hown]

/-- Fuel-indexed form of the loop action-shape invariant: every action of
the convergence loop is a listing on this node, a 5-second sleep, or a
log. -/
theorem convergeLoop_shape_aux (w : World) (node : String) :
    ∀ fuel k now endt rem, endt - now ≤ fuel →
      ∀ a ∈ (convergeLoop w node k now endt rem).1,
        a = Action.listPods ("spec.nodeName=" ++ node) ∨ a = Action.sleep 5 ∨
          ∃ s, a = Action.logMsg s := by
  intro fuel
  induction fuel with
  | zero =>
      intro k now endt rem hf a ha
      have hlt : ¬ now < endt := by omega
      rw [convergeLoop, dif_neg hlt] at ha
      simp at ha
  | succ m ih =>
      intro k now endt rem hf a ha
      by_cases hlt : now < endt
      · rw [convergeLoop, dif_pos hlt] at ha
        rcases hg : get_evictable_pods w k node with ⟨t, r⟩
        have ht : t = [Action.listPods ("spec.nodeName=" ++ node)] := by
          have := gep_trace w k node
          rw [hg] at this
          exact this
        cases r with
        | ok polled =>
            rw [hg, seqA_ok] at ha
            by_cases hE : polled = []
            · simp [hE, ht] at ha
              rcases ha with ha | ha
              · exact Or.inl ha
              · exact Or.inr (Or.inr ⟨_, ha⟩)
            · simp [hE, ht] at ha
              rcases ha with ha | ha | ha | ha
              · exact Or.inl ha
              · exact Or.inr (Or.inr ⟨_, ha⟩)
              · exact Or.inr (Or.inl ha)
              · exact ih (k + 1) (now + 5) endt polled (by omega) a ha
        | exited c =>
            rw [hg] at ha
            simp [seqA, ht] at ha
            exact Or.inl ha
        | uncaught e =>
            rw [hg] at ha
            simp [seqA, ht] at ha
            exact Or.inl ha
      · rw [convergeLoop, dif_neg hlt] at ha
        simp at ha

/-- Every action of the convergence loop as entered by the handler is a
listing on this node, a 5-second sleep, or a log. -/
theorem convergeLoop_shape (w : World) (node : String) (k now endt : Nat)
    (rem : List Pod) :
    ∀ a ∈ (convergeLoop w node k now endt rem).1,
      a = Action.listPods ("spec.nodeName=" ++ node) ∨ a = Action.sleep 5 ∨
        ∃ s, a = Action.logMsg s :=
  convergeLoop_shape_aux w node (endt - now) k now endt rem (Nat.le_refl _)

/-- Fuel-indexed poll bound: the loop performs at most
`ceil((endt - now) / 5)` listing calls. -/
theorem convergeLoop_polls_aux (w : World) (node : String) :
    ∀ fuel k now endt rem, endt - now ≤ fuel →
      (convergeLoop w node k now endt rem).1.countP isPollAct ≤
        (endt - now + 4) / 5 := by
  intro fuel
  induction fuel with
  | zero =>
      intro k now endt rem hf
      have hlt : ¬ now < endt := by omega
      rw [convergeLoop, dif_neg hlt]
      simp
  | succ m ih =>
      intro k now endt rem hf
      by_cases hlt : now < endt
      · rw [convergeLoop, dif_pos hlt]
        rcases hg : get_evictable_pods w k node with ⟨t, r⟩
        have ht : t = [Action.listPods ("spec.nodeName=" ++ node)] := by
          have := gep_trace w k node
          rw [hg] at this
          exact this
        have hone : t.countP isPollAct = 1 := by
          rw [ht]
          simp [List.countP, List.countP.go, isPollAct]
        cases r with
        | ok polled =>
            rw [seqA_ok, ht]
            by_cases hE : polled = []
            · subst hE
              simp [List.countP_append, List.countP_cons, List.countP_nil, isPollAct]
              omega
            · simp only [if_neg hE]
              have hrest := ih (k + 1) (now + 5) endt polled (by omega)
              simp [List.countP_append, List.countP_cons, List.countP_nil, isPollAct]
              omega
        | exited c =>
            simp only [seqA]
            rw [hone]
            omega
        | uncaught e =>
            simp only [seqA]
            rw [hone]
            omega
      · rw [convergeLoop, dif_neg hlt]
        simp

/-- The convergence loop performs at most `ceil((endt - now) / 5)`
listing calls. -/
theorem convergeLoop_polls (w : World) (node : String) (k now endt : Nat)
    (rem : List Pod) :
    (convergeLoop w node k now endt rem).1.countP isPollAct ≤
      (endt - now + 4) / 5 :=
  convergeLoop_polls_aux w node (endt - now) k now endt rem (Nat.le_refl _)

/-- Fuel-indexed normal-termination lemma: when every poll response
arrives and contains only owned pods, the loop returns normally. -/
theorem convergeLoop_ok_aux {w : World}
    (hl : ∀ j, ∃ pods, w.listPodsResult j = Except.ok pods ∧
      ∀ p ∈ pods, hasOwner p = true) (node : String) :
    ∀ fuel k now endt rem, endt - now ≤ fuel →
      ∃ rem2, (convergeLoop w node k now endt rem).2 = PyResult.ok rem2 := by
  intro fuel
  induction fuel with
  | zero =>
      intro k now endt rem hf
      have hlt : ¬ now < endt := by omega
      rw [convergeLoop, dif_neg hlt]
      exact ⟨rem, rfl⟩
  | succ m ih =>
      intro k now endt rem hf
      by_cases hlt : now < endt
      · rw [convergeLoop, dif_pos hlt]
        obtain ⟨pods, hp, hown⟩ := hl k
        rw [gep_clean node hp hown, seqA_ok]
        by_cases hE : pods.filter (fun p => !(firstOwnerIsDaemonSet p)) = []
        · simp [hE]
        · simp only [if_neg hE]
          exact ih (k + 1) (now + 5) endt _ (by omega)
      · rw [convergeLoop, dif_neg hlt]
        exact ⟨rem, rfl⟩

/-- When every poll response arrives and contains only owned pods, the
convergence loop returns normally. -/
theorem convergeLoop_ok {w : World}
    (hl : ∀ j, ∃ pods, w.listPodsResult j = Except.ok pods ∧
      ∀ p ∈ pods, hasOwner p = true) (node : String) (k now endt : Nat)
    (rem : List Pod) :
    ∃ rem2, (convergeLoop w node k now endt rem).2 = PyResult.ok rem2 :=
  convergeLoop_ok_aux hl node (endt - now) k now endt rem (Nat.le_refl _)

/-- When the first poll inside the loop returns the empty set, the loop
terminates at once after that single listing call: no sleep and no
further poll happens. -/
theorem convergeLoop_first_empty {w : World} {k : Nat} (node : String)
    (hk : w.listPodsResult k = Except.ok []) {now endt : Nat}
    (hlt : now < endt) (rem : List Pod) :
    convergeLoop w node k now endt rem =
      ([Action.listPods ("spec.nodeName=" ++ node),
        Action.logMsg "All pods have been evicted.  Safe to proceed with node termination"],
       PyResult.ok []) := by
  rw [convergeLoop, dif_pos hlt, gep_clean node hk (by simp), seqA_ok]
  simp

/-- The straggler block always returns normally. -/
theorem stragglerWait_res (rem : List Pod) :
    (stragglerWait rem).2 = PyResult.ok () := by
  by_cases h : rem = [] <;> simp [stragglerWait, h]

/-- Every action of the straggler block is the 30-second sleep or a log. -/
theorem stragglerWait_shape (rem : List Pod) :
    ∀ a ∈ (stragglerWait rem).1,
      a = Action.sleep 30 ∨ ∃ s, a = Action.logMsg s := by
  intro a ha
  by_cases h : rem = []
  · simp [stragglerWait, h] at ha
  · simp [stragglerWait, h] at ha
    aesop

/-- The straggler block sleeps 30 seconds exactly once when stragglers
remain, and not at all otherwise. -/
theorem stragglerWait_count30 (rem : List Pod) :
    (stragglerWait rem).1.countP (isSleepAct 30) = if rem = [] then 0 else 1 := by
  by_cases h : rem = []
  · simp [stragglerWait, h]
  · simp only [stragglerWait, if_neg h]
    have h1 : (Action.logMsg "The following pods did not drain successfully:" ::
        rem.map (fun pod =>
          Action.logMsg (pod.metadata.nspace ++ "/" ++ pod.metadata.name))).countP
            (isSleepAct 30) = 0 := by
      rw [List.countP_eq_zero]
      intro a ha
      rcases List.mem_cons.mp ha with rfl | ha
      · simp [isSleepAct]
      · obtain ⟨p, _, rfl⟩ := List.mem_map.mp ha
        simp [isSleepAct]
    rw [List.countP_append, h1]
    simp [List.countP, List.countP.go, isSleepAct]

/-- With stragglers remaining, the straggler block is some logs followed
by the single 30-second sleep as its last action. -/
theorem stragglerWait_ne (rem : List Pod) (h : rem ≠ []) :
    ∃ logs, (stragglerWait rem).1 = logs ++ [Action.sleep 30] :=
  ⟨Action.logMsg "The following pods did not drain successfully:" ::
      rem.map (fun pod =>
        Action.logMsg (pod.metadata.nspace ++ "/" ++ pod.metadata.name)),
    by simp [stragglerWait, h]⟩

/-- `continue_lifecycle` always issues the completion call, with result
CONTINUE, as its first action. -/
theorem cl_head (w : World) (hk gp iid : String) :
    ∃ rest, (continue_lifecycle w hk gp iid).1 =
      Action.completeLifecycleAction hk gp "CONTINUE" iid :: rest := by
  rcases hc : w.completeLifecycleResult with e | u
  · cases e with
    | apiException => exact ⟨[], by simp [continue_lifecycle, hc]⟩
    | clientError =>
        exact ⟨[Action.logMsg ("Exception in advancing lifecycle event " ++ hk)],
          by simp [continue_lifecycle, hc]⟩
    | otherError s => exact ⟨[], by simp [continue_lifecycle, hc]⟩
  · exact ⟨[], by simp [continue_lifecycle, hc]⟩

/-- Every action of `continue_lifecycle` is the CONTINUE completion call
or a log. -/
theorem cl_shape (w : World) (hk gp iid : String) :
    ∀ a ∈ (continue_lifecycle w hk gp iid).1,
      a = Action.completeLifecycleAction hk gp "CONTINUE" iid ∨
        ∃ s, a = Action.logMsg s := by
  intro a ha
  rcases hc : w.completeLifecycleResult with e | u
  · cases e <;> simp [continue_lifecycle, hc] at ha <;> aesop
  · simp [continue_lifecycle, hc] at ha
    aesop

/-- `continue_lifecycle` issues the lifecycle completion exactly once. -/
theorem cl_count (w : World) (hk gp iid : String) :
    (continue_lifecycle w hk gp iid).1.countP isLifecycleAct = 1 := by
  rcases hc : w.completeLifecycleResult with e | u
  · cases e <;> simp [continue_lifecycle, hc, List.countP, List.countP.go, isLifecycleAct]
  · simp [continue_lifecycle, hc, List.countP, List.countP.go, isLifecycleAct]

/-- A `ClientError` from the completion call is swallowed after logging. -/
theorem cl_res_clientError {w : World} (hk gp iid : String)
    (hc : w.completeLifecycleResult = Except.error PyError.clientError) :
    (continue_lifecycle w hk gp iid).2 = PyResult.ok () := by
  simp [continue_lifecycle, hc]

/-- Full-run decomposition: in a clean world the handler trace is the
resolution call, the provisioning calls, the entry log, the cordon block,
the single initial planning call, the eviction fan-out over the filtered
initial snapshot, the convergence loop, the straggler block, and the
lifecycle completion, in that order; the result is the lifecycle
completion result and the loop ends normally. -/
theorem handler_decomp {w : World} {dns : String} (e : Event) (h : RunsClean w dns)
    {pods0 : List Pod} (h0 : w.listPodsResult 0 = Except.ok pods0) :
    ∃ rem, (convergeLoop w dns 1 0 (60 * 3) []).2 = PyResult.ok rem ∧
      lambda_handler w e =
        ([Action.describeInstances e.ec2InstanceId,
          Action.describeCluster e.notificationMetadata,
          Action.writeKubeConfig "/tmp/kubeconfig",
          Action.loadKubeConfig "/tmp/kubeconfig",
          Action.logMsg ("Recieved a request to evict node " ++ dns)] ++
         (cordon_node w dns).1 ++
         [Action.listPods ("spec.nodeName=" ++ dns)] ++
         (evictAll w (pods0.filter (fun p => !(firstOwnerIsDaemonSet p)))).1 ++
         (convergeLoop w dns 1 0 (60 * 3) []).1 ++
         (stragglerWait rem).1 ++
         (continue_lifecycle w e.lifecycleHookName e.autoScalingGroupName
           e.ec2InstanceId).1,
         (continue_lifecycle w e.lifecycleHookName e.autoScalingGroupName
           e.ec2InstanceId).2) := by
  obtain ⟨rem, hrem⟩ := convergeLoop_ok h.listsOk dns 1 0 (60 * 3) []
  refine ⟨rem, hrem, ?_⟩
  have hown : ∀ p ∈ pods0, hasOwner p = true := by
    obtain ⟨pods, hp, ho⟩ := h.listsOk 0
    have heq := h0.symm.trans hp
    injection heq with heq2
    subst heq2
    exact ho
  simp only [lambda_handler, gh_clean h e,
    gkc_clean h e.region e.notificationMetadata, seqA_ok]
  rw [seqA_split (cordon_node w dns) () (cordon_res dns h.patchOk)]
  simp only [gep_clean dns h0 hown, seqA_ok]
  rw [seqA_split _ () (evictAll_res h.evictOk _)]
  rw [seqA_split _ rem hrem]
  rw [seqA_split _ () (stragglerWait_res rem)]
  simp [List.append_assoc]

/-- `wClean` is a clean world resolving to the example hostname. -/
theorem wClean_runs : RunsClean wClean "ip-10-0-1-5.ec2.internal" := by
  refine ⟨⟨_, _, _, _, _, rfl, rfl, rfl, rfl⟩, ⟨_, rfl⟩, Or.inl rfl, ?_,
    fun n ns => Or.inl rfl⟩
  intro j
  by_cases hj : j = 0
  · subst hj
    exact ⟨[podA, podB, podC], rfl, by decide⟩
  · refine ⟨[], ?_, by simp⟩
    simp [wClean, hj]

/-- `wBestEffort` is a clean world resolving to the example hostname. -/
theorem wBestEffort_runs : RunsClean wBestEffort "ip-10-0-1-5.ec2.internal" := by
  refine ⟨⟨_, _, _, _, _, rfl, rfl, rfl, rfl⟩, ⟨_, rfl⟩, Or.inr rfl, ?_, ?_⟩
  · intro j
    by_cases hj : j = 0
    · subst hj
      exact ⟨[podA, podC], rfl, by decide⟩
    · refine ⟨[], ?_, by simp⟩
      simp [wBestEffort, hj]
  · intro n ns
    by_cases hn : n = "pod-a"
    · subst hn
      exact Or.inr (by simp [wBestEffort])
    · exact Or.inl (by simp [wBestEffort, hn])

/-- Filtering with a predicate false on every element yields nil. -/
theorem filter_eq_nil_of (p : Action → Bool) :
    ∀ l : List Action, (∀ a ∈ l, p a = false) → l.filter p = [] := by
  intro l
  induction l with
  | nil => intro _; rfl
  | cons a t ih =>
      intro h
      have ha := h a (List.mem_cons_self _ _)
      simp [List.filter, ha, ih (fun b hb => h b (List.mem_cons_of_mem _ hb))]

/-- Counting with a predicate false on every element yields zero. -/
theorem countP_zero_of (p : Action → Bool) (l : List Action)
    (h : ∀ a ∈ l, p a = false) : l.countP p = 0 :=
  List.countP_eq_zero.mpr (by intro a ha; simp [h a ha])

/-- Claim C1: for every pod list returned by the cluster in which each
pod has at least one owner reference, the Eviction Planner
(`get_evictable_pods`) excludes exactly the pods whose first
owner-reference kind equals DaemonSet and includes every other pod,
preserving the listing order (the output is the order-preserving filter
of the listing; the behaviour on ownerless pods is settled under C2). -/
theorem c1_planner_filters_daemonsets (w : World) (k : Nat) (node : String)
    (pods : List Pod) (hl : w.listPodsResult k = Except.ok pods)
    (hown : ∀ p ∈ pods, hasOwner p = true) :
    ∃ out, get_evictable_pods w k node =
        ([Action.listPods ("spec.nodeName=" ++ node)], PyResult.ok out) ∧
      out = pods.filter (fun p => !(firstOwnerIsDaemonSet p)) ∧
      (∀ p ∈ pods, firstOwnerIsDaemonSet p = true → p ∉ out) ∧
      (∀ p ∈ pods, firstOwnerIsDaemonSet p = false → p ∈ out) ∧
      out.Sublist pods := by
  refine ⟨_, gep_clean node hl hown, rfl, ?_, ?_, List.filter_sublist _⟩
  · intro p _ hd hmem
    have := (List.mem_filter.mp hmem).2
    simp [hd] at this
  · intro p hp hd
    exact List.mem_filter.mpr ⟨hp, by simp [hd]⟩

/-- Witness for C1: a concrete listing of a ReplicaSet-owned pod, a
DaemonSet-owned pod and a StatefulSet-owned pod gives back exactly the
first and third, in order. -/
theorem c1_planner_filters_daemonsets_witness :
    get_evictable_pods wClean 0 "n1" =
      ([Action.listPods ("spec.nodeName=" ++ "n1")], PyResult.ok [podA, podC]) := by
  obtain ⟨out, h1, h2, h3, h4, h5⟩ :=
    c1_planner_filters_daemonsets wClean 0 "n1" [podA, podB, podC] rfl (by decide)
  rw [h1, h2]
  rfl

/-- Claim C2 (code bug): a pod with no owner references is not treated
as evictable.  The subscript `owner_references[0]` raises an uncaught
TypeError, so the listing call aborts the invocation instead of
returning the pod.  Evaluated at a node whose pod list holds an
evictable pod plus an ownerless pod: the planner raises, and the whole
handler ends with the uncaught exception (no eviction, no lifecycle
completion). -/
theorem c2_ownerless_pod_crashes :
    get_evictable_pods wBarePod 0 "ip-10-0-1-5.ec2.internal" =
      ([Action.listPods ("spec.nodeName=" ++ "ip-10-0-1-5.ec2.internal")],
       PyResult.uncaught (PyError.otherError "TypeError")) ∧
    (lambda_handler wBarePod ev0).2 =
      PyResult.uncaught (PyError.otherError "TypeError") := by
  exact ⟨rfl, rfl⟩

/-- Claim C4: the convergence loop (deadline 60 * 3 = 180 seconds, fixed
5-second interval) performs at most ceil(180 / 5) = 36 polls in every
world, and when its first planning call returns the empty set it
terminates immediately after that single call: zero extra polls and no
sleep. -/
theorem c4_loop_bounded (w : World) (node : String) :
    (convergeLoop w node 1 0 (60 * 3) []).1.countP isPollAct ≤ 36 ∧
    (w.listPodsResult 1 = Except.ok [] →
      convergeLoop w node 1 0 (60 * 3) [] =
        ([Action.listPods ("spec.nodeName=" ++ node),
          Action.logMsg "All pods have been evicted.  Safe to proceed with node termination"],
         PyResult.ok [])) := by
  constructor
  · exact le_trans (convergeLoop_polls w node 1 0 (60 * 3) []) (by norm_num)
  · intro h1
    exact convergeLoop_first_empty node h1 (by norm_num) []

/-- Witness for C4: in the concrete clean world the loop polls once,
sees the empty set and stops at once. -/
theorem c4_loop_bounded_witness :
    (convergeLoop wClean "n1" 1 0 (60 * 3) []).1.countP isPollAct ≤ 36 ∧
    convergeLoop wClean "n1" 1 0 (60 * 3) [] =
      ([Action.listPods ("spec.nodeName=" ++ "n1"),
        Action.logMsg "All pods have been evicted.  Safe to proceed with node termination"],
       PyResult.ok []) :=
  ⟨(c4_loop_bounded wClean "n1").1, (c4_loop_bounded wClean "n1").2 rfl⟩

/-- Claim C6: when the compute provider cannot return a private network
name (`describe_instances` raises `ClientError`), the invocation exits
with code 1 right after the resolution call: no cluster is described, no
config is written, no cordon, no eviction and no lifecycle completion
appears in the trace. -/
theorem c6_resolution_failure_aborts (w : World) (e : Event)
    (h : w.describeInstancesResult = Except.error PyError.clientError) :
    lambda_handler w e =
      ([Action.describeInstances e.ec2InstanceId,
        Action.logMsg ("Exception when converting " ++ e.ec2InstanceId ++
          " to private DNS")],
       PyResult.exited 1) ∧
    ∀ a ∈ (lambda_handler w e).1,
      a = Action.describeInstances e.ec2InstanceId ∨ ∃ s, a = Action.logMsg s := by
  have h1 : lambda_handler w e =
      ([Action.describeInstances e.ec2InstanceId,
        Action.logMsg ("Exception when converting " ++ e.ec2InstanceId ++
          " to private DNS")],
       PyResult.exited 1) := by
    simp [lambda_handler, get_hostname, h, seqA]
  refine ⟨h1, ?_⟩
  rw [h1]
  intro a ha
  simp at ha
  aesop

/-- Witness for C6: the concrete world whose instance lookup fails with
`ClientError` aborts with exit code 1 and an empty cluster footprint. -/
theorem c6_resolution_failure_aborts_witness :
    lambda_handler wNoInstance ev0 =
      ([Action.describeInstances "i-0123",
        Action.logMsg ("Exception when converting " ++ "i-0123" ++ " to private DNS")],
       PyResult.exited 1) :=
  (c6_resolution_failure_aborts wNoInstance ev0 rfl).1

/-- Shape of the whole clean-run trace: every action is one of the fixed
resolution/provisioning calls, the cordon patch on the resolved node, a
listing with the node field selector, an eviction request of a pod of
the filtered initial snapshot, a 5- or 30-second sleep, the CONTINUE
lifecycle completion with the event arguments, or a log. -/
theorem handler_shape {w : World} {dns : String} (e : Event) (h : RunsClean w dns)
    {pods0 : List Pod} (h0 : w.listPodsResult 0 = Except.ok pods0) :
    ∀ a ∈ (lambda_handler w e).1,
      a = Action.describeInstances e.ec2InstanceId ∨
      a = Action.describeCluster e.notificationMetadata ∨
      a = Action.writeKubeConfig "/tmp/kubeconfig" ∨
      a = Action.loadKubeConfig "/tmp/kubeconfig" ∨
      a = Action.patchNode dns true ∨
      a = Action.listPods ("spec.nodeName=" ++ dns) ∨
      (∃ p ∈ pods0.filter (fun p => !(firstOwnerIsDaemonSet p)),
        a = Action.createPodEviction p.metadata.name p.metadata.nspace 750) ∨
      a = Action.sleep 5 ∨ a = Action.sleep 30 ∨
      a = Action.completeLifecycleAction e.lifecycleHookName
        e.autoScalingGroupName "CONTINUE" e.ec2InstanceId ∨
      ∃ s, a = Action.logMsg s := by
  obtain ⟨rem, hrem, hEq⟩ := handler_decomp e h h0
  intro a ha
  rw [hEq] at ha
  simp only [List.mem_append] at ha
  rcases ha with (((((ha | hb) | hc) | hd) | he) | hf) | hg
  · simp only [List.mem_cons, List.not_mem_nil, or_false] at ha
    rcases ha with ha | ha | ha | ha | ha
    · exact Or.inl ha
    · exact Or.inr (Or.inl ha)
    · exact Or.inr (Or.inr (Or.inl ha))
    · exact Or.inr (Or.inr (Or.inr (Or.inl ha)))
    · exact Or.inr (Or.inr (Or.inr (Or.inr (Or.inr (Or.inr (Or.inr (Or.inr
        (Or.inr (Or.inr ⟨_, ha⟩)))))))))
  · rcases cordon_shape w dns a hb with h1 | ⟨s, h1⟩
    · exact Or.inr (Or.inr (Or.inr (Or.inr (Or.inl h1))))
    · exact Or.inr (Or.inr (Or.inr (Or.inr (Or.inr (Or.inr (Or.inr (Or.inr
        (Or.inr (Or.inr ⟨_, h1⟩)))))))))
  · simp only [List.mem_singleton] at hc
    exact Or.inr (Or.inr (Or.inr (Or.inr (Or.inr (Or.inl hc)))))
  · rcases evictAll_shape w _ a hd with ⟨p, hp, h1⟩ | ⟨s, h1⟩
    · exact Or.inr (Or.inr (Or.inr (Or.inr (Or.inr (Or.inr (Or.inl ⟨p, hp, h1⟩))))))
    · exact Or.inr (Or.inr (Or.inr (Or.inr (Or.inr (Or.inr (Or.inr (Or.inr
        (Or.inr (Or.inr ⟨_, h1⟩)))))))))
  · rcases convergeLoop_shape w dns 1 0 (60 * 3) [] a he with h1 | h1 | ⟨s, h1⟩
    · exact Or.inr (Or.inr (Or.inr (Or.inr (Or.inr (Or.inl h1)))))
    · exact Or.inr (Or.inr (Or.inr (Or.inr (Or.inr (Or.inr (Or.inr (Or.inl h1)))))))
    · exact Or.inr (Or.inr (Or.inr (Or.inr (Or.inr (Or.inr (Or.inr (Or.inr
        (Or.inr (Or.inr ⟨_, h1⟩)))))))))
  · rcases stragglerWait_shape rem a hf with h1 | ⟨s, h1⟩
    · exact Or.inr (Or.inr (Or.inr (Or.inr (Or.inr (Or.inr (Or.inr (Or.inr
        (Or.inl h1))))))))
    · exact Or.inr (Or.inr (Or.inr (Or.inr (Or.inr (Or.inr (Or.inr (Or.inr
        (Or.inr (Or.inr ⟨_, h1⟩)))))))))
  · rcases cl_shape w _ _ _ a hg with h1 | ⟨s, h1⟩
    · exact Or.inr (Or.inr (Or.inr (Or.inr (Or.inr (Or.inr (Or.inr (Or.inr
        (Or.inr (Or.inl h1)))))))))
    · exact Or.inr (Or.inr (Or.inr (Or.inr (Or.inr (Or.inr (Or.inr (Or.inr
        (Or.inr (Or.inr ⟨_, h1⟩)))))))))

/-- Helper: in a clean run, the eviction requests of the whole trace are
exactly the one-per-snapshot-pod map over the filtered initial planning
snapshot. -/
theorem handler_evict_filter (w : World) (e : Event) (dns : String)
    (pods0 : List Pod) (h : RunsClean w dns)
    (h0 : w.listPodsResult 0 = Except.ok pods0) :
    (lambda_handler w e).1.filter isEvictAct =
      (pods0.filter (fun p => !(firstOwnerIsDaemonSet p))).map
        (fun p => Action.createPodEviction p.metadata.name p.metadata.nspace 750) := by
  obtain ⟨rem, hrem, hEq⟩ := handler_decomp e h h0
  have hc : (cordon_node w dns).1.filter isEvictAct = [] := by
    apply filter_eq_nil_of
    intro a ha
    rcases cordon_shape w dns a ha with h1 | ⟨s, h1⟩ <;> subst h1 <;> rfl
  have hlp : (convergeLoop w dns 1 0 (60 * 3) []).1.filter isEvictAct = [] := by
    apply filter_eq_nil_of
    intro a ha
    rcases convergeLoop_shape w dns 1 0 (60 * 3) [] a ha with h1 | h1 | ⟨s, h1⟩ <;>
      subst h1 <;> rfl
  have hsw : (stragglerWait rem).1.filter isEvictAct = [] := by
    apply filter_eq_nil_of
    intro a ha
    rcases stragglerWait_shape rem a ha with h1 | ⟨s, h1⟩ <;> subst h1 <;> rfl
  have hclf : (continue_lifecycle w e.lifecycleHookName e.autoScalingGroupName
      e.ec2InstanceId).1.filter isEvictAct = [] := by
    apply filter_eq_nil_of
    intro a ha
    rcases cl_shape w _ _ _ a ha with h1 | ⟨s, h1⟩ <;> subst h1 <;> rfl
  rw [hEq]
  simp only [List.filter_append, hc, hlp, hsw, hclf, evictAll_filter h.evictOk]
  simp [isEvictAct, List.filter]

/-- Claim C3: in a run without fatal failures, the eviction requests of
the whole invocation are exactly one per workload of the initial
planning snapshot, in listing order, each with a 750-second grace
period; later convergence polls never add or repeat a request. -/
theorem c3_evict_exactly_once (w : World) (e : Event) (dns : String)
    (pods0 : List Pod) (h : RunsClean w dns)
    (h0 : w.listPodsResult 0 = Except.ok pods0) :
    (lambda_handler w e).1.filter isEvictAct =
      (pods0.filter (fun p => !(firstOwnerIsDaemonSet p))).map
        (fun p => Action.createPodEviction p.metadata.name p.metadata.nspace 750) :=
  handler_evict_filter w e dns pods0 h h0

/-- Witness for C3: in the concrete clean world (snapshot: ReplicaSet
pod, DaemonSet pod, StatefulSet pod) exactly the two non-DaemonSet pods
get one eviction request each, grace period 750. -/
theorem c3_evict_exactly_once_witness :
    (lambda_handler wClean ev0).1.filter isEvictAct =
      [Action.createPodEviction "pod-a" "default" 750,
       Action.createPodEviction "pod-c" "default" 750] := by
  have h := c3_evict_exactly_once wClean ev0 "ip-10-0-1-5.ec2.internal"
    [podA, podB, podC] wClean_runs rfl
  rw [h]
  rfl

/-- Claim C5: in a run without fatal failures the lifecycle completion
is issued exactly once, and every completion in the trace carries the
result CONTINUE (whatever the straggler outcome was). -/
theorem c5_lifecycle_once (w : World) (e : Event) (dns : String)
    (pods0 : List Pod) (h : RunsClean w dns)
    (h0 : w.listPodsResult 0 = Except.ok pods0) :
    (lambda_handler w e).1.countP isLifecycleAct = 1 ∧
    ∀ hk gp r iid,
      Action.completeLifecycleAction hk gp r iid ∈ (lambda_handler w e).1 →
        r = "CONTINUE" := by
  constructor
  · obtain ⟨rem, hrem, hEq⟩ := handler_decomp e h h0
    have z1 : (cordon_node w dns).1.countP isLifecycleAct = 0 := by
      apply countP_zero_of
      intro a ha
      rcases cordon_shape w dns a ha with h1 | ⟨s, h1⟩ <;> subst h1 <;> rfl
    have z2 : (evictAll w (pods0.filter
        (fun p => !(firstOwnerIsDaemonSet p)))).1.countP isLifecycleAct = 0 := by
      apply countP_zero_of
      intro a ha
      rcases evictAll_shape w _ a ha with ⟨p, _, h1⟩ | ⟨s, h1⟩ <;> subst h1 <;> rfl
    have z3 : (convergeLoop w dns 1 0 (60 * 3) []).1.countP isLifecycleAct = 0 := by
      apply countP_zero_of
      intro a ha
      rcases convergeLoop_shape w dns 1 0 (60 * 3) [] a ha with h1 | h1 | ⟨s, h1⟩ <;>
        subst h1 <;> rfl
    have z4 : (stragglerWait rem).1.countP isLifecycleAct = 0 := by
      apply countP_zero_of
      intro a ha
      rcases stragglerWait_shape rem a ha with h1 | ⟨s, h1⟩ <;> subst h1 <;> rfl
    rw [hEq]
    simp only [List.countP_append, z1, z2, z3, z4, cl_count]
    simp [List.countP_cons, List.countP_nil, isLifecycleAct]
  · intro hk gp r iid hmem
    rcases handler_shape e h h0 _ hmem with h1 | h1 | h1 | h1 | h1 | h1 |
        ⟨p, _, h1⟩ | h1 | h1 | h1 | ⟨s, h1⟩ <;>
      first
        | exact Action.noConfusion h1
        | (cases h1; rfl)

/-- Witness for C5: in the concrete clean world with stragglers absent
the lifecycle completion appears exactly once in the trace. -/
theorem c5_lifecycle_once_witness :
    (lambda_handler wClean ev0).1.countP isLifecycleAct = 1 :=
  (c5_lifecycle_once wClean ev0 "ip-10-0-1-5.ec2.internal" [podA, podB, podC]
    wClean_runs rfl).1

/-- Claim C9: in a run without fatal failures every cluster operation is
scoped to the single resolved node: the one cordon patch targets exactly
the resolved hostname, every listing uses the field selector
`spec.nodeName=<hostname>`, and every eviction request names a pod taken
from the initial planning list of that node. -/
theorem c9_single_node_scope (w : World) (e : Event) (dns : String)
    (pods0 : List Pod) (h : RunsClean w dns)
    (h0 : w.listPodsResult 0 = Except.ok pods0) :
    (lambda_handler w e).1.countP isPatchAct = 1 ∧
    (∀ n b, Action.patchNode n b ∈ (lambda_handler w e).1 → n = dns ∧ b = true) ∧
    (∀ s, Action.listPods s ∈ (lambda_handler w e).1 → s = "spec.nodeName=" ++ dns) ∧
    (∀ nm ns g, Action.createPodEviction nm ns g ∈ (lambda_handler w e).1 →
      g = 750 ∧ ∃ p ∈ pods0, p.metadata.name = nm ∧ p.metadata.nspace = ns) := by
  refine ⟨?_, ?_, ?_, ?_⟩
  · obtain ⟨rem, hrem, hEq⟩ := handler_decomp e h h0
    have z2 : (evictAll w (pods0.filter
        (fun p => !(firstOwnerIsDaemonSet p)))).1.countP isPatchAct = 0 := by
      apply countP_zero_of
      intro a ha
      rcases evictAll_shape w _ a ha with ⟨p, _, h1⟩ | ⟨s, h1⟩ <;> subst h1 <;> rfl
    have z3 : (convergeLoop w dns 1 0 (60 * 3) []).1.countP isPatchAct = 0 := by
      apply countP_zero_of
      intro a ha
      rcases convergeLoop_shape w dns 1 0 (60 * 3) [] a ha with h1 | h1 | ⟨s, h1⟩ <;>
        subst h1 <;> rfl
    have z4 : (stragglerWait rem).1.countP isPatchAct = 0 := by
      apply countP_zero_of
      intro a ha
      rcases stragglerWait_shape rem a ha with h1 | ⟨s, h1⟩ <;> subst h1 <;> rfl
    have z5 : (continue_lifecycle w e.lifecycleHookName e.autoScalingGroupName
        e.ec2InstanceId).1.countP isPatchAct = 0 := by
      apply countP_zero_of
      intro a ha
      rcases cl_shape w _ _ _ a ha with h1 | ⟨s, h1⟩ <;> subst h1 <;> rfl
    rw [hEq]
    simp only [List.countP_append, z2, z3, z4, z5, cordon_patch_count]
    simp [List.countP_cons, List.countP_nil, isPatchAct]
  · intro n b hmem
    rcases handler_shape e h h0 _ hmem with h1 | h1 | h1 | h1 | h1 | h1 |
        ⟨p, _, h1⟩ | h1 | h1 | h1 | ⟨s, h1⟩ <;>
      first
        | exact Action.noConfusion h1
        | (cases h1; exact ⟨rfl, rfl⟩)
  · intro s hmem
    rcases handler_shape e h h0 _ hmem with h1 | h1 | h1 | h1 | h1 | h1 |
        ⟨p, _, h1⟩ | h1 | h1 | h1 | ⟨s2, h1⟩ <;>
      first
        | exact Action.noConfusion h1
        | (cases h1; rfl)
  · intro nm ns g hmem
    rcases handler_shape e h h0 _ hmem with h1 | h1 | h1 | h1 | h1 | h1 |
        ⟨p, hp, h1⟩ | h1 | h1 | h1 | ⟨s, h1⟩ <;>
      first
        | exact Action.noConfusion h1
        | (cases h1; exact ⟨rfl, p, List.mem_of_mem_filter hp, rfl, rfl⟩)

/-- Witness for C9: in the concrete clean world the node is patched
exactly once. -/
theorem c9_single_node_scope_witness :
    (lambda_handler wClean ev0).1.countP isPatchAct = 1 :=
  (c9_single_node_scope wClean ev0 "ip-10-0-1-5.ec2.internal" [podA, podB, podC]
    wClean_runs rfl).1

/-- Claim C7: best-effort failures are swallowed where they occur, with
a diagnostic log, and the flow continues: with a failing cordon
(`ApiException`), any subset of failing evictions (`ApiException`) and a
failing lifecycle completion (`ClientError`), the invocation still ends
normally, every snapshot workload still receives its single eviction
request (failure isolation), and each such failure leaves its diagnostic
in the trace. -/
theorem c7_best_effort_isolation (w : World) (e : Event) (dns : String)
    (pods0 : List Pod) (h : RunsClean w dns)
    (h0 : w.listPodsResult 0 = Except.ok pods0)
    (hp : w.patchNodeResult = Except.error PyError.apiException)
    (hl : w.completeLifecycleResult = Except.error PyError.clientError) :
    (lambda_handler w e).2 = PyResult.ok () ∧
    (lambda_handler w e).1.filter isEvictAct =
      (pods0.filter (fun p => !(firstOwnerIsDaemonSet p))).map
        (fun p => Action.createPodEviction p.metadata.name p.metadata.nspace 750) ∧
    Action.logMsg ("Exception when cordoning " ++ dns) ∈ (lambda_handler w e).1 ∧
    Action.logMsg ("Exception in advancing lifecycle event " ++ e.lifecycleHookName) ∈
      (lambda_handler w e).1 ∧
    ∀ p ∈ pods0.filter (fun p => !(firstOwnerIsDaemonSet p)),
      w.evictResult p.metadata.name p.metadata.nspace =
          Except.error PyError.apiException →
        Action.logMsg ("Exception when evicting " ++ p.metadata.name) ∈
          (lambda_handler w e).1 := by
  obtain ⟨rem, hrem, hEq⟩ := handler_decomp e h h0
  refine ⟨?_, handler_evict_filter w e dns pods0 h h0, ?_, ?_, ?_⟩
  · rw [hEq]
    exact cl_res_clientError _ _ _ hl
  · have hm : Action.logMsg ("Exception when cordoning " ++ dns) ∈
        (cordon_node w dns).1 := by
      simp [cordon_node, hp]
    rw [hEq]
    simp only [List.mem_append]
    exact Or.inl (Or.inl (Or.inl (Or.inl (Or.inl (Or.inr hm)))))
  · have hm : Action.logMsg ("Exception in advancing lifecycle event " ++
        e.lifecycleHookName) ∈ (continue_lifecycle w e.lifecycleHookName
          e.autoScalingGroupName e.ec2InstanceId).1 := by
      simp [continue_lifecycle, hl]
    rw [hEq]
    simp only [List.mem_append]
    exact Or.inr hm
  · intro p hpf hfail
    have hm := evictAll_log h.evictOk _ p hpf hfail
    rw [hEq]
    simp only [List.mem_append]
    exact Or.inl (Or.inl (Or.inl (Or.inr hm)))

/-- Witness for C7: in the concrete best-effort world (cordon fails,
the eviction of pod-a fails, lifecycle completion fails) the run ends
normally, both snapshot pods still get their eviction request, and the
cordon and eviction diagnostics are present. -/
theorem c7_best_effort_isolation_witness :
    (lambda_handler wBestEffort ev0).2 = PyResult.ok () ∧
    (lambda_handler wBestEffort ev0).1.filter isEvictAct =
      [Action.createPodEviction "pod-a" "default" 750,
       Action.createPodEviction "pod-c" "default" 750] ∧
    Action.logMsg ("Exception when cordoning " ++ "ip-10-0-1-5.ec2.internal") ∈
      (lambda_handler wBestEffort ev0).1 ∧
    Action.logMsg ("Exception when evicting " ++ "pod-a") ∈
      (lambda_handler wBestEffort ev0).1 := by
  obtain ⟨h1, h2, h3, h4, h5⟩ := c7_best_effort_isolation wBestEffort ev0
    "ip-10-0-1-5.ec2.internal" [podA, podC] wBestEffort_runs rfl rfl rfl
  refine ⟨h1, ?_, h3, ?_⟩
  · rw [h2]
    rfl
  · exact h5 podA (by decide) rfl

/-- Claim C8: in a run without fatal failures, when the convergence loop
ends with stragglers remaining the handler sleeps exactly one fixed
30-second interval and the very next action is the lifecycle completion;
when the loop ends with the evictable set empty, no 30-second sleep
occurs anywhere in the trace. -/
theorem c8_straggler_grace (w : World) (e : Event) (dns : String)
    (pods0 : List Pod) (h : RunsClean w dns)
    (h0 : w.listPodsResult 0 = Except.ok pods0) :
    (∀ rem, (convergeLoop w dns 1 0 (60 * 3) []).2 = PyResult.ok rem →
      ((lambda_handler w e).1.countP (isSleepAct 30) = if rem = [] then 0 else 1) ∧
      (rem ≠ [] → ∃ pre post, (lambda_handler w e).1 =
        pre ++ Action.sleep 30 :: Action.completeLifecycleAction e.lifecycleHookName
          e.autoScalingGroupName "CONTINUE" e.ec2InstanceId :: post)) ∧
    (w.listPodsResult 1 = Except.ok [] →
      (lambda_handler w e).1.countP (isSleepAct 30) = 0) := by
  obtain ⟨rem0, hrem0, hEq⟩ := handler_decomp e h h0
  have zc : (cordon_node w dns).1.countP (isSleepAct 30) = 0 := by
    apply countP_zero_of
    intro a ha
    rcases cordon_shape w dns a ha with h1 | ⟨s, h1⟩ <;> subst h1 <;> rfl
  have ze : (evictAll w (pods0.filter
      (fun p => !(firstOwnerIsDaemonSet p)))).1.countP (isSleepAct 30) = 0 := by
    apply countP_zero_of
    intro a ha
    rcases evictAll_shape w _ a ha with ⟨p, _, h1⟩ | ⟨s, h1⟩ <;> subst h1 <;> rfl
  have zl : (convergeLoop w dns 1 0 (60 * 3) []).1.countP (isSleepAct 30) = 0 := by
    apply countP_zero_of
    intro a ha
    rcases convergeLoop_shape w dns 1 0 (60 * 3) [] a ha with h1 | h1 | ⟨s, h1⟩ <;>
      subst h1 <;> rfl
  have zcl : (continue_lifecycle w e.lifecycleHookName e.autoScalingGroupName
      e.ec2InstanceId).1.countP (isSleepAct 30) = 0 := by
    apply countP_zero_of
    intro a ha
    rcases cl_shape w _ _ _ a ha with h1 | ⟨s, h1⟩ <;> subst h1 <;> rfl
  have hc30 : (lambda_handler w e).1.countP (isSleepAct 30) =
      if rem0 = [] then 0 else 1 := by
    rw [hEq]
    simp only [List.countP_append, zc, ze, zl, zcl, stragglerWait_count30]
    simp [List.countP_cons, List.countP_nil, isSleepAct]
  constructor
  · intro rem hr
    have hsame : rem = rem0 := by
      have h2 := hrem0.symm.trans hr
      injection h2 with h3
      exact h3.symm
    subst hsame
    refine ⟨hc30, ?_⟩
    intro hne
    obtain ⟨logs, hstr⟩ := stragglerWait_ne rem hne
    obtain ⟨rest, hcl⟩ := cl_head w e.lifecycleHookName e.autoScalingGroupName
      e.ec2InstanceId
    refine ⟨[Action.describeInstances e.ec2InstanceId,
        Action.describeCluster e.notificationMetadata,
        Action.writeKubeConfig "/tmp/kubeconfig",
        Action.loadKubeConfig "/tmp/kubeconfig",
        Action.logMsg ("Recieved a request to evict node " ++ dns)] ++
      (cordon_node w dns).1 ++ [Action.listPods ("spec.nodeName=" ++ dns)] ++
      (evictAll w (pods0.filter (fun p => !(firstOwnerIsDaemonSet p)))).1 ++
      (convergeLoop w dns 1 0 (60 * 3) []).1 ++ logs, rest, ?_⟩
    rw [hEq, hstr, hcl]
    simp [List.append_assoc]
  · intro h1
    have hfe := @convergeLoop_first_empty w 1 dns h1 0 (60 * 3) (by norm_num)
      ([] : List Pod)
    have hnil : rem0 = [] := by
      have h2 := hrem0
      rw [hfe] at h2
      have h3 : PyResult.ok ([] : List Pod) = PyResult.ok rem0 := h2
      injection h3 with h4
      exact h4.symm
    rw [hc30]
    simp [hnil]

/-- Witness for C8: in the concrete clean world the loop ends with the
evictable set empty and no 30-second sleep appears in the trace. -/
theorem c8_straggler_grace_witness :
    (lambda_handler wClean ev0).1.countP (isSleepAct 30) = 0 :=
  (c8_straggler_grace wClean ev0 "ip-10-0-1-5.ec2.internal" [podA, podB, podC]
    wClean_runs rfl).2 rfl

/-- Claim C10: each handler swallows only its one exception class.
`cordon_node` and `evict_pod` swallow only `ApiException` (a
`ClientError` there propagates uncaught); `continue_lifecycle` swallows
only `ClientError` (an `ApiException` there propagates uncaught);
`get_hostname` turns only `ClientError` into the fatal exit, while an
empty reservation list in a successful response raises an uncaught
IndexError that leaves the whole invocation right after the resolution
call. -/
theorem c10_exception_scoping (w : World) (e : Event) (node nm ns hk gp iid : String) :
    (w.patchNodeResult = Except.error PyError.clientError →
      (cordon_node w node).2 = PyResult.uncaught PyError.clientError) ∧
    (w.patchNodeResult = Except.error PyError.apiException →
      (cordon_node w node).2 = PyResult.ok ()) ∧
    (w.evictResult nm ns = Except.error PyError.clientError →
      (evict_pod w nm ns).2 = PyResult.uncaught PyError.clientError) ∧
    (w.evictResult nm ns = Except.error PyError.apiException →
      (evict_pod w nm ns).2 = PyResult.ok ()) ∧
    (w.completeLifecycleResult = Except.error PyError.apiException →
      (continue_lifecycle w hk gp iid).2 = PyResult.uncaught PyError.apiException) ∧
    (w.completeLifecycleResult = Except.error PyError.clientError →
      (continue_lifecycle w hk gp iid).2 = PyResult.ok ()) ∧
    (∀ resp, w.describeInstancesResult = Except.ok resp → resp.reservations = [] →
      lambda_handler w e =
        ([Action.describeInstances e.ec2InstanceId],
         PyResult.uncaught (PyError.otherError "IndexError"))) ∧
    (w.describeInstancesResult = Except.error PyError.clientError →
      (get_hostname w e).2 = PyResult.exited 1) := by
  refine ⟨?_, ?_, ?_, ?_, ?_, ?_, ?_, ?_⟩
  · intro hcp
    simp [cordon_node, hcp]
  · intro hcp
    simp [cordon_node, hcp]
  · intro hev
    simp [evict_pod, hev]
  · intro hev
    simp [evict_pod, hev]
  · intro hlc
    simp [continue_lifecycle, hlc]
  · intro hlc
    simp [continue_lifecycle, hlc]
  · intro resp hr he
    simp [lambda_handler, get_hostname, hr, he, seqA]
  · intro hr
    simp [get_hostname, hr]

/-- Witness for C10: a `ClientError` cordon failure propagates uncaught,
an empty reservation list aborts the whole invocation with the uncaught
IndexError, and a `ClientError` resolution failure exits with code 1. -/
theorem c10_exception_scoping_witness :
    (cordon_node wUncaughtPatch "n1").2 = PyResult.uncaught PyError.clientError ∧
    lambda_handler wEmptyReservations ev0 =
      ([Action.describeInstances "i-0123"],
       PyResult.uncaught (PyError.otherError "IndexError")) ∧
    (get_hostname wNoInstance ev0).2 = PyResult.exited 1 := by
  refine ⟨?_, ?_, ?_⟩
  · exact (c10_exception_scoping wUncaughtPatch ev0 "n1" "x" "y" "h1" "g1" "i1").1 rfl
  · exact (c10_exception_scoping wEmptyReservations ev0 "n1" "x" "y" "h1" "g1"
      "i1").2.2.2.2.2.2.1 ⟨[]⟩ rfl rfl
  · exact (c10_exception_scoping wNoInstance ev0 "n1" "x" "y" "h1" "g1"
      "i1").2.2.2.2.2.2.2 rfl

end DrainNode
